import Mathlib

/-!
Verification of the `CellsGrid` widget (`src/cells_grid.py`).

The development shallowly embeds the Python class: Python numbers are
modelled as rationals (`ℚ`, Python `/` is true division), Python's dynamic
typing of the spacing arguments is modelled by tagged-union types, the
mutable widget object is modelled as an explicit `GridState` threaded
through the operations, and Python exceptions are modelled by returning a
`PyError` alongside the state reached when the exception was raised
(Python exceptions leave the partially mutated object behind, so the state
must survive a failure).
-/

/-- A single element of a spacing tuple/list. `other` is any non-numeric
Python value; the string it carries is the value's Python type name. -/
inductive SpacingElem where
  | int : Int → SpacingElem
  | float : ℚ → SpacingElem
  | other : String → SpacingElem
deriving DecidableEq, Repr

/-- Python `isinstance(v, (int, float))`, used by `__ensure_numeric_sequence`. -/
def SpacingElem.isNumeric : SpacingElem → Bool
  | .int _ => true
  | .float _ => true
  | .other _ => false

/-- Numeric value of an element (0 for non-numeric elements; the code only
reads elements after the numeric check has passed). -/
def SpacingElem.val : SpacingElem → ℚ
  | .int n => (n : ℚ)
  | .float q => q
  | .other _ => 0

/-- A value passed for `margin` / `padding` / `cells_spacing`.  `seq` covers
both Python tuples and lists; `other` is any value that is none of int,
float, tuple, list (carrying its Python type name, e.g. `"str"`). -/
inductive SpacingValue where
  | int : Int → SpacingValue
  | float : ℚ → SpacingValue
  | seq : List SpacingElem → SpacingValue
  | other : String → SpacingValue
deriving DecidableEq, Repr

/-- Python exceptions raised by the class, with the data the message
interpolates.  `invalidSpacingType` is the `TypeError` from the
`isinstance(value, (int, tuple, list))` guard (parameter name, received
type name); `invalidNumeric` is the `TypeError` from
`__ensure_numeric_sequence` (parameter name, offending sequence);
`invalidLength` is the `ValueError` with the valid-forms guidance
(parameter name); `invalidShape` is the `ValueError` raised by
`load_cells` when `grid_shape` has length other than 2; `indexError` is a
Python `IndexError` from list indexing. -/
inductive PyError where
  | invalidSpacingType : String → String → PyError
  | invalidNumeric : String → List SpacingElem → PyError
  | invalidLength : String → PyError
  | invalidShape : PyError
  | indexError : PyError
deriving DecidableEq, Repr

instance {ε α : Type} [DecidableEq ε] [DecidableEq α] : DecidableEq (Except ε α) :=
  fun x y =>
    match x, y with
    | .ok a, .ok b =>
      if h : a = b then .isTrue (by rw [h]) else .isFalse (by intro hc; cases hc; exact h rfl)
    | .error a, .error b =>
      if h : a = b then .isTrue (by rw [h]) else .isFalse (by intro hc; cases hc; exact h rfl)
    | .ok _, .error _ => .isFalse (by intro hc; cases hc)
    | .error _, .ok _ => .isFalse (by intro hc; cases hc)

/-- `CellsGrid.__ensure_numeric_sequence`: fails unless every element of the
sequence is an int or a float. -/
def ensureNumericSequence (sq : List SpacingElem) (name : String) :
    Except PyError Unit :=
  if sq.all SpacingElem.isNumeric then .ok () else .error (.invalidNumeric name sq)

/-- `CellsGrid.__normalize_cell_spacing`: normalizes `cells_spacing` to a
4-tuple `(left, top, right, bottom)` and halves every value. -/
def normalizeCellSpacing (value : SpacingValue) :
    Except PyError (ℚ × ℚ × ℚ × ℚ) :=
  match value with
  | .float _ => .error (.invalidSpacingType "cells_spacing" "float")
  | .other t => .error (.invalidSpacingType "cells_spacing" t)
  | .int n => .ok ((n : ℚ) / 2, (n : ℚ) / 2, (n : ℚ) / 2, (n : ℚ) / 2)
  | .seq sq =>
    if sq.length = 2 then
      match ensureNumericSequence sq "cells_spacing" with
      | .error e => .error e
      | .ok _ =>
        let a := (sq.getD 0 (.int 0)).val
        let b := (sq.getD 1 (.int 0)).val
        .ok (a / 2, b / 2, a / 2, b / 2)
    else if sq.length = 4 then
      match ensureNumericSequence sq "cells_spacing" with
      | .error e => .error e
      | .ok _ =>
        .ok ((sq.getD 0 (.int 0)).val / 2, (sq.getD 1 (.int 0)).val / 2,
             (sq.getD 2 (.int 0)).val / 2, (sq.getD 3 (.int 0)).val / 2)
    else
      .error (.invalidLength "cells_spacing")

/-- `CellsGrid.__normalize_box_spacing`: normalizes `margin` / `padding`
(the parameter's name is passed in) to a 4-tuple, without halving. -/
def normalizeBoxSpacing (value : SpacingValue) (name : String) :
    Except PyError (ℚ × ℚ × ℚ × ℚ) :=
  match value with
  | .float _ => .error (.invalidSpacingType name "float")
  | .other t => .error (.invalidSpacingType name t)
  | .int n => .ok ((n : ℚ), (n : ℚ), (n : ℚ), (n : ℚ))
  | .seq sq =>
    if sq.length = 2 then
      match ensureNumericSequence sq name with
      | .error e => .error e
      | .ok _ =>
        .ok ((sq.getD 0 (.int 0)).val, (sq.getD 1 (.int 0)).val,
             (sq.getD 0 (.int 0)).val, (sq.getD 1 (.int 0)).val)
    else if sq.length = 4 then
      match ensureNumericSequence sq name with
      | .error e => .error e
      | .ok _ =>
        .ok ((sq.getD 0 (.int 0)).val, (sq.getD 1 (.int 0)).val,
             (sq.getD 2 (.int 0)).val, (sq.getD 3 (.int 0)).val)
    else
      .error (.invalidLength name)

/-- Normalization of the outer margin and inner padding done once in
`CellsGrid.__init__` (both through the Box rule). -/
def initSpacing (margin padding : SpacingValue) :
    Except PyError ((ℚ × ℚ × ℚ × ℚ) × (ℚ × ℚ × ℚ × ℚ)) := do
  let m ← normalizeBoxSpacing margin "margin"
  let p ← normalizeBoxSpacing padding "padding"
  return (m, p)

/-- The `array` argument of `load_cells`: a Python int, or a tuple/list of
ints. -/
inductive ArrayArg where
  | int : Int → ArrayArg
  | seq : List Int → ArrayArg
deriving DecidableEq, Repr

/-- Line 85: `(array, array) if isinstance(array, int) else tuple(array)`,
as a list standing for the Python tuple of unknown length. -/
def arrayShape : ArrayArg → List Int
  | .int n => [n, n]
  | .seq xs => xs

/-- The uniform styling attributes `load_cells` stores on `self`
(`self.cell_border_color` … `self.cell_width`, lines 92-99). -/
structure CellStyle where
  border_color : Option String
  border_width : ℚ
  corner_radius : ℚ
  fg_color : Option String
  height : ℚ
  width : ℚ
deriving DecidableEq, Repr, Inhabited

/-- One `CTkFrame` cell: its identity (widget handle), its grid position,
the constructor arguments it received, and the `padx`/`pady` pairs passed
to `cell.grid(...)`. -/
structure Cell where
  id : Nat
  row : Nat
  col : Nat
  style : CellStyle
  padx : ℚ × ℚ
  pady : ℚ × ℚ
deriving DecidableEq, Repr, Inhabited

/-- The mutable attributes of a `CellsGrid` instance that the grid logic
touches.  `grid_shape` is the Python tuple `self.grid_shape` (`[]` models
the attribute before it is first assigned); `destroyedIds` records, in
order, the ids of the cells on which `.destroy()` has been called;
`nextId` is a fresh-widget-handle counter. -/
structure GridState where
  grid_shape : List Int
  cells_matrix : List (List Cell)
  cell_spacing : ℚ × ℚ × ℚ × ℚ
  style : CellStyle
  nextId : Nat
  destroyedIds : List Nat
deriving DecidableEq, Repr

/-- State of a freshly constructed `CellsGrid` (`__init__` sets
`self._cells_matrix = []`; the `cell_*` attributes do not exist yet, their
values here are inert placeholders that nothing reads before `load_cells`
assigns them). -/
def initState : GridState :=
  { grid_shape := []
    cells_matrix := []
    cell_spacing := (0, 0, 0, 0)
    style := { border_color := none, border_width := 0, corner_radius := 0,
               fg_color := none, height := 0, width := 0 }
    nextId := 0
    destroyedIds := [] }

/-- Inner loop of `__destroy_all_cells` for one value of `row`:
`for col in cols: self._cells_matrix[row][col].destroy()`.  Returns the
ids destroyed (in order) and the `IndexError`, if indexing went out of
bounds. -/
def destroyInner (mat : List (List Cell)) (row : Nat) :
    List Nat → List Nat × Option PyError
  | [] => ([], none)
  | col :: rest =>
    match mat[row]? with
    | none => ([], some .indexError)
    | some rowCells =>
      match rowCells[col]? with
      | none => ([], some .indexError)
      | some cell =>
        let (ids, e) := destroyInner mat row rest
        (cell.id :: ids, e)

/-- Outer loop of `__destroy_all_cells`:
`for row in rows: for col in range(grid_shape[1]): ...`.  `grid_shape[1]`
is read each time the inner loop starts. -/
def destroyOuter (mat : List (List Cell)) (gs : List Int) :
    List Nat → List Nat × Option PyError
  | [] => ([], none)
  | row :: rest =>
    match gs[1]? with
    | none => ([], some .indexError)
    | some c1 =>
      match destroyInner mat row (List.range c1.toNat) with
      | (ids, some e) => (ids, some e)
      | (ids, none) =>
        let (ids2, e2) := destroyOuter mat gs rest
        (ids ++ ids2, e2)

/-- `CellsGrid.__destroy_all_cells` (lines 145-152): a no-op when
`self._cells_matrix` is empty, otherwise a loop over
`range(self.grid_shape[0]) × range(self.grid_shape[1])` destroying
`self._cells_matrix[row][col]` — note the ranges come from `grid_shape`,
not from the matrix itself. -/
def destroyAllCells (s : GridState) : GridState × Option PyError :=
  if s.cells_matrix.isEmpty then (s, none)
  else
    match s.grid_shape[0]? with
    | none => (s, some .indexError)
    | some r0 =>
      let (ids, e) := destroyOuter s.cells_matrix s.grid_shape (List.range r0.toNat)
      ({ s with destroyedIds := s.destroyedIds ++ ids }, e)

/-- Python `q * b` where `b` is a bool (`True` is 1, `False` is 0), as used
in `cell_spacing[0] * (col != 0)`. -/
def timesBool (q : ℚ) (b : Bool) : ℚ := q * (if b then 1 else 0)

/-- Construction and placement of the cell at `(row, col)`
(lines 112-135): the `CTkFrame` receives the uniform styling, and
`cell.grid` receives the edge-aware margins built from `self.cell_spacing`
and `self._last_row_index` / `self._last_column_index`. -/
def mkCell (st : CellStyle) (sp : ℚ × ℚ × ℚ × ℚ) (lastRow lastCol : Int)
    (row col : Nat) (id : Nat) : Cell :=
  { id := id
    row := row
    col := col
    style := st
    padx := (timesBool sp.1 ((col : Int) != 0),
             timesBool sp.2.2.1 ((col : Int) != lastCol))
    pady := (timesBool sp.2.1 ((row : Int) != 0),
             timesBool sp.2.2.2 ((row : Int) != lastRow)) }

/-- The nested creation loop of `load_cells` (lines 109-137): row-major
construction of `grid_shape[0] × grid_shape[1]` cells; widget handles are
issued consecutively from `baseId`. -/
def buildMatrix (st : CellStyle) (sp : ℚ × ℚ × ℚ × ℚ) (baseId : Nat)
    (r c : Int) : List (List Cell) :=
  (List.range r.toNat).map fun row =>
    (List.range c.toNat).map fun col =>
      mkCell st sp (r - 1) (c - 1) row col (baseId + row * c.toNat + col)

/-- The `cells_border_color` … `cells_width` arguments of `load_cells`,
with the defaults from the signature (lines 65-76).  `none` models Python
`None`. -/
structure LoadArgs where
  array : ArrayArg := .int 4
  cells_border_color : Option String := none
  cells_border_width : ℚ := 0
  cells_corner_radius : ℚ := 30
  cells_fg_color : Option String := none
  cells_height : Option ℚ := none
  cells_size : ℚ := 100
  cells_spacing : SpacingValue := .int 10
  cells_width : Option ℚ := none
deriving DecidableEq, Repr

/-- Lines 92-99: the uniform style stored on `self`; width/height fall back
to `cells_size` when not provided. -/
def styleOfArgs (a : LoadArgs) : CellStyle :=
  { border_color := a.cells_border_color
    border_width := a.cells_border_width
    corner_radius := a.cells_corner_radius
    fg_color := a.cells_fg_color
    height := a.cells_height.getD a.cells_size
    width := a.cells_width.getD a.cells_size }

/-- `CellsGrid.load_cells` (lines 65-137), in the source's order:
destroy the previous cells, store and validate `grid_shape`, store the
styling, normalize `cells_spacing`, then reset `self._cells_matrix` and
build the new matrix.  The returned state is the object after the call;
the `Option PyError` is the exception the call raised, if any. -/
def loadCells (s0 : GridState) (a : LoadArgs) : GridState × Option PyError :=
  match destroyAllCells s0 with
  | (s1, some e) => (s1, some e)
  | (s1, none) =>
    let gs := arrayShape a.array
    let s2 := { s1 with grid_shape := gs }
    if gs.length ≠ 2 then (s2, some .invalidShape)
    else
      let s3 := { s2 with style := styleOfArgs a }
      match normalizeCellSpacing a.cells_spacing with
      | .error e => (s3, some e)
      | .ok sp =>
        let r := gs.getD 0 0
        let c := gs.getD 1 0
        let s4 := { s3 with cell_spacing := sp }
        ({ s4 with
            cells_matrix := buildMatrix (styleOfArgs a) sp s4.nextId r c
            nextId := s4.nextId + r.toNat * c.toNat }, none)

/-- `CellsGrid.get_cells_grid` (lines 139-143). -/
def get_cells_grid (s : GridState) : List (List Cell) := s.cells_matrix

/-- Widget handles of the cells of a matrix, in row-major order. -/
def matrixIds (mat : List (List Cell)) : List Nat :=
  (mat.map fun rowCells => rowCells.map Cell.id).flatten

/-- A state is well formed when its matrix is empty or matches the stored
`grid_shape` (every state produced by the public API between calls is well
formed, except after a `load_cells` failure — which is the point of the
`IndexError` analysis below). -/
def WF (s : GridState) : Prop :=
  s.cells_matrix = [] ∨
    ∃ r c : Int, s.grid_shape = [r, c] ∧
      s.cells_matrix.length = r.toNat ∧
      ∀ rowCells ∈ s.cells_matrix, rowCells.length = c.toNat


/-- The observable layout data of a cell: everything except the widget
identity. -/
structure CellObs where
  row : Nat
  col : Nat
  style : CellStyle
  padx : ℚ × ℚ
  pady : ℚ × ℚ
deriving DecidableEq, Repr

/-- Forget a cell's identity. -/
def Cell.obs (cell : Cell) : CellObs :=
  { row := cell.row, col := cell.col, style := cell.style,
    padx := cell.padx, pady := cell.pady }

/-- Observable layout of a whole matrix. -/
def matrixObs (mat : List (List Cell)) : List (List CellObs) :=
  mat.map fun rowCells => rowCells.map Cell.obs

/-- The cell handle the caller reaches through
`get_cells_grid()[row][col]`, when those indices exist. -/
def cellAt (s : GridState) (row col : Nat) : Option Cell :=
  (get_cells_grid s)[row]?.bind fun rowCells => rowCells[col]?

/-- Arguments of the scenario call `load_cells(array=2, cells_spacing=10)`
(the remaining arguments keep their declared defaults). -/
def argsSquare2 : LoadArgs := { array := .int 2, cells_spacing := .int 10 }

/-- Object state after `load_cells(array=2, cells_spacing=10)` on a fresh
widget: a 2×2 matrix. -/
def stateSquare2 : GridState := (loadCells initState argsSquare2).1

/-- Arguments of the invalid call `load_cells(array=(1,2,3))`. -/
def argsBad123 : LoadArgs := { array := .seq [1, 2, 3] }

/-- Arguments of the invalid call `load_cells(array=(5,5,5))`, whose first
two entries exceed the 2×2 dimensions of `stateSquare2`. -/
def argsBad555 : LoadArgs := { array := .seq [5, 5, 5] }

/-- Object state after the failed `load_cells(array=(5,5,5))` on
`stateSquare2`: the stale 2×2 matrix is kept while `grid_shape` now reads
`(5, 5, 5)`. -/
def stateAfterBad555 : GridState := (loadCells stateSquare2 argsBad555).1

/-- Arguments of the reshaping call `load_cells(array=(1,3))`. -/
def argsRow13 : LoadArgs := { array := .seq [1, 3] }

lemma rowcol_lt {row col rN cN : Nat} (hr : row < rN) (hc : col < cN) :
    row * cN + col < rN * cN :=
  calc row * cN + col < row * cN + cN := Nat.add_lt_add_left hc _
    _ = (row + 1) * cN := (Nat.succ_mul _ _).symm
    _ ≤ rN * cN := Nat.mul_le_mul_right _ hr

lemma timesBool_eq (q : ℚ) (x y : Int) :
    timesBool q (x != y) = if x ≠ y then q else 0 := by
  by_cases h : x = y <;> simp [timesBool, h]

lemma destroyInner_ok (mat : List (List Cell)) (row : Nat)
    (rowCells : List Cell) (hrow : mat[row]? = some rowCells) :
    ∀ (k i : Nat), i + k ≤ rowCells.length →
      destroyInner mat row (List.range' i k) =
        (((rowCells.drop i).take k).map Cell.id, none)
  | 0, i, _ => by simp [destroyInner]
  | k + 1, i, h => by
    have hi : i < rowCells.length := by omega
    have hcol : rowCells[i]? = some rowCells[i] := List.getElem?_eq_getElem hi
    have ih := destroyInner_ok mat row rowCells hrow k (i + 1) (by omega)
    rw [List.range'_succ]
    simp only [destroyInner, hrow, hcol, ih]
    rw [← List.getElem_cons_drop rowCells i hi, List.take_succ_cons]
    simp

lemma destroyOuter_ok (mat : List (List Cell)) (gs : List Int) (c : Int)
    (hgs : gs[1]? = some c)
    (hrows : ∀ rc ∈ mat, rc.length = c.toNat) :
    ∀ (k i : Nat), i + k ≤ mat.length →
      destroyOuter mat gs (List.range' i k) =
        ((((mat.drop i).take k).map fun rc => rc.map Cell.id).flatten, none)
  | 0, i, _ => by simp [destroyOuter]
  | k + 1, i, h => by
    have hi : i < mat.length := by omega
    have hrowi : mat[i]? = some mat[i] := List.getElem?_eq_getElem hi
    have hlen : mat[i].length = c.toNat := hrows _ (List.getElem_mem hi)
    have hIn : destroyInner mat i (List.range c.toNat) =
        (mat[i].map Cell.id, none) := by
      rw [List.range_eq_range']
      rw [destroyInner_ok mat i mat[i] hrowi c.toNat 0 (by omega)]
      rw [List.drop_zero, ← hlen, List.take_length]
    have ih := destroyOuter_ok mat gs c hgs hrows k (i + 1) (by omega)
    rw [List.range'_succ]
    simp only [destroyOuter, hgs, hIn, ih]
    rw [← List.getElem_cons_drop mat i hi, List.take_succ_cons]
    simp

/-- Under a well-formed state, `__destroy_all_cells` succeeds and destroys
exactly the cells of the stored matrix, in row-major order. -/
lemma destroyAllCells_wf (s : GridState) (hwf : WF s) :
    destroyAllCells s =
      ({ s with destroyedIds := s.destroyedIds ++ matrixIds s.cells_matrix },
       none) := by
  by_cases hm : s.cells_matrix.isEmpty
  · have hnil : s.cells_matrix = [] := List.isEmpty_iff.mp hm
    obtain ⟨gs, mat, spc, st, nid, dids⟩ := s
    simp only at hnil
    subst hnil
    simp [destroyAllCells, matrixIds]
  · rcases hwf with hnil | ⟨r, c, hgs, hlen, hrows⟩
    · exact absurd (by simp [hnil]) hm
    · have h0 : s.grid_shape[0]? = some r := by rw [hgs]; rfl
      have h1 : s.grid_shape[1]? = some c := by rw [hgs]; rfl
      have hout : destroyOuter s.cells_matrix s.grid_shape
          (List.range r.toNat) = (matrixIds s.cells_matrix, none) := by
        rw [List.range_eq_range']
        rw [destroyOuter_ok s.cells_matrix s.grid_shape c h1 hrows r.toNat 0
            (by omega)]
        rw [List.drop_zero, ← hlen, List.take_length]
        rfl
      simp [destroyAllCells, hm, h0, hout]

/-- If `__destroy_all_cells` raises, `load_cells` raises the same exception
at once, whatever its arguments, leaving the state `__destroy_all_cells`
reached. -/
lemma loadCells_destroy_err (s : GridState) (a : LoadArgs) (e : PyError)
    (h : (destroyAllCells s).2 = some e) :
    loadCells s a = ((destroyAllCells s).1, some e) := by
  unfold loadCells
  rcases hd : destroyAllCells s with ⟨s1, e1⟩
  rw [hd] at h
  simp at h
  subst h
  rfl

/-- Full characterization of a successful `load_cells` call from a
well-formed state: the prior cells are destroyed, the new shape, styling
and spacing are stored, and the matrix is rebuilt with fresh widget
handles. -/
lemma loadCells_ok (s : GridState) (a : LoadArgs) (r c : Int)
    (sp : ℚ × ℚ × ℚ × ℚ) (hwf : WF s) (hgs : arrayShape a.array = [r, c])
    (hsp : normalizeCellSpacing a.cells_spacing = .ok sp) :
    loadCells s a =
      ({ grid_shape := [r, c]
         cells_matrix := buildMatrix (styleOfArgs a) sp s.nextId r c
         cell_spacing := sp
         style := styleOfArgs a
         nextId := s.nextId + r.toNat * c.toNat
         destroyedIds := s.destroyedIds ++ matrixIds s.cells_matrix },
       none) := by
  unfold loadCells
  rw [destroyAllCells_wf s hwf]
  simp only [hgs, hsp, List.length_cons, List.length_nil]
  norm_num

lemma buildMatrix_length (st : CellStyle) (sp : ℚ × ℚ × ℚ × ℚ)
    (b : Nat) (r c : Int) : (buildMatrix st sp b r c).length = r.toNat := by
  simp [buildMatrix]

lemma buildMatrix_row_length (st : CellStyle) (sp : ℚ × ℚ × ℚ × ℚ)
    (b : Nat) (r c : Int) :
    ∀ rowCells ∈ buildMatrix st sp b r c, rowCells.length = c.toNat := by
  intro rowCells h
  simp only [buildMatrix, List.mem_map, List.mem_range] at h
  obtain ⟨row, -, rfl⟩ := h
  simp

/-- The cell found at `(row, col)` of a built matrix. -/
lemma buildMatrix_cell (st : CellStyle) (sp : ℚ × ℚ × ℚ × ℚ)
    (b : Nat) (r c : Int) (row col : Nat)
    (hr : row < r.toNat) (hc : col < c.toNat) :
    ((buildMatrix st sp b r c)[row]?.bind fun rowCells => rowCells[col]?) =
      some (mkCell st sp (r - 1) (c - 1) row col (b + row * c.toNat + col)) := by
  simp [buildMatrix, List.getElem?_range, hr, hc]

/-- Conversely, any entry of the built matrix is the prescribed cell. -/
lemma buildMatrix_cell_inv (st : CellStyle) (sp : ℚ × ℚ × ℚ × ℚ)
    (b : Nat) (r c : Int) (row col : Nat) (rowCells : List Cell) (cell : Cell)
    (hrow : (buildMatrix st sp b r c)[row]? = some rowCells)
    (hcol : rowCells[col]? = some cell) :
    row < r.toNat ∧ col < c.toNat ∧
      cell = mkCell st sp (r - 1) (c - 1) row col (b + row * c.toNat + col) := by
  have hr : row < r.toNat := by
    by_contra hcon
    rw [List.getElem?_eq_none] at hrow
    · cases hrow
    · rw [buildMatrix_length]; omega
  refine ⟨hr, ?_, ?_⟩
  · by_contra hcon
    have hlen : rowCells.length = c.toNat := by
      apply buildMatrix_row_length st sp b r c
      exact List.getElem?_mem hrow
    rw [List.getElem?_eq_none] at hcol
    · cases hcol
    · omega
  · have hcc : col < c.toNat := by
      by_contra hcon
      have hlen : rowCells.length = c.toNat := by
        apply buildMatrix_row_length st sp b r c
        exact List.getElem?_mem hrow
      rw [List.getElem?_eq_none] at hcol
      · cases hcol
      · omega
    have := buildMatrix_cell st sp b r c row col hr hcc
    rw [hrow] at this
    simp only [Option.some_bind] at this
    rw [hcol] at this
    exact (Option.some.injEq _ _).mp this.symm |>.symm

/-- A successful rebuild leaves a well-formed state. -/
lemma WF_loadCells (s : GridState) (a : LoadArgs) (r c : Int)
    (sp : ℚ × ℚ × ℚ × ℚ) (hwf : WF s) (hgs : arrayShape a.array = [r, c])
    (hsp : normalizeCellSpacing a.cells_spacing = .ok sp) :
    WF (loadCells s a).1 := by
  rw [loadCells_ok s a r c sp hwf hgs hsp]
  right
  exact ⟨r, c, rfl, buildMatrix_length _ _ _ _ _,
    buildMatrix_row_length _ _ _ _ _⟩

/-- Every widget handle issued by a rebuild lies in
`[baseId, baseId + rows*cols)`. -/
lemma matrixIds_buildMatrix (st : CellStyle) (sp : ℚ × ℚ × ℚ × ℚ)
    (b : Nat) (r c : Int) :
    ∀ id ∈ matrixIds (buildMatrix st sp b r c),
      b ≤ id ∧ id < b + r.toNat * c.toNat := by
  intro id hid
  simp only [matrixIds, List.mem_flatten, List.mem_map] at hid
  obtain ⟨idsRow, ⟨rowCells, hrowm, rfl⟩, hidm⟩ := hid
  simp only [buildMatrix, List.mem_map, List.mem_range] at hrowm
  obtain ⟨row, hrow, rfl⟩ := hrowm
  simp only [List.mem_map, List.map_map, List.mem_range, Function.comp] at hidm
  obtain ⟨col, hcol, rfl⟩ := hidm
  simp only [mkCell]
  exact ⟨by omega, by have := rowcol_lt hrow hcol; omega⟩

/-- C3: for every valid cell-spacing input, `__normalize_cell_spacing`
returns the 4-tuple with every value halved: an int `v` yields
`(v/2, v/2, v/2, v/2)`; a valid 2-sequence `(x, y)` yields
`(x/2, y/2, x/2, y/2)`; a valid 4-sequence `(l, t, r, b)` yields
`(l/2, t/2, r/2, b/2)`. -/
theorem claim_C3_cell_spacing_halved :
    (∀ n : Int, normalizeCellSpacing (.int n) =
        .ok ((n : ℚ) / 2, (n : ℚ) / 2, (n : ℚ) / 2, (n : ℚ) / 2)) ∧
    (∀ x y : SpacingElem, x.isNumeric → y.isNumeric →
        normalizeCellSpacing (.seq [x, y]) =
          .ok (x.val / 2, y.val / 2, x.val / 2, y.val / 2)) ∧
    (∀ l t r b : SpacingElem,
        l.isNumeric → t.isNumeric → r.isNumeric → b.isNumeric →
        normalizeCellSpacing (.seq [l, t, r, b]) =
          .ok (l.val / 2, t.val / 2, r.val / 2, b.val / 2)) := by
  refine ⟨fun n => rfl, fun x y hx hy => ?_, fun l t r b hl ht hr hb => ?_⟩
  · simp [normalizeCellSpacing, ensureNumericSequence, hx, hy]
  · simp [normalizeCellSpacing, ensureNumericSequence, hl, ht, hr, hb]

/-- Witness for C3 at concrete inputs `10`, `(10, 7/2)`. -/
theorem claim_C3_witness :
    normalizeCellSpacing (.int 10) = .ok (5, 5, 5, 5) ∧
    normalizeCellSpacing (.seq [.int 10, .float (7 / 2)]) =
      .ok (5, 7 / 4, 5, 7 / 4) := by
  constructor
  · rw [claim_C3_cell_spacing_halved.1 10]
    norm_num
  · rw [claim_C3_cell_spacing_halved.2.1 (.int 10) (.float (7 / 2)) rfl rfl]
    norm_num [SpacingElem.val]

/-- C4: for every valid box-spacing input, `__normalize_box_spacing`
returns, without halving: for an int `v`, `(v, v, v, v)`; for a valid
2-sequence `(x, y)`, `(x, y, x, y)`; for a valid 4-sequence
`(l, t, r, b)`, `(l, t, r, b)` unchanged. -/
theorem claim_C4_box_spacing_not_halved :
    (∀ (n : Int) (name : String), normalizeBoxSpacing (.int n) name =
        .ok ((n : ℚ), (n : ℚ), (n : ℚ), (n : ℚ))) ∧
    (∀ (x y : SpacingElem) (name : String), x.isNumeric → y.isNumeric →
        normalizeBoxSpacing (.seq [x, y]) name =
          .ok (x.val, y.val, x.val, y.val)) ∧
    (∀ (l t r b : SpacingElem) (name : String),
        l.isNumeric → t.isNumeric → r.isNumeric → b.isNumeric →
        normalizeBoxSpacing (.seq [l, t, r, b]) name =
          .ok (l.val, t.val, r.val, b.val)) := by
  refine ⟨fun n name => rfl, fun x y name hx hy => ?_,
    fun l t r b name hl ht hr hb => ?_⟩
  · simp [normalizeBoxSpacing, ensureNumericSequence, hx, hy]
  · simp [normalizeBoxSpacing, ensureNumericSequence, hl, ht, hr, hb]

/-- Witness for C4 at concrete inputs `7`, `(1, 2, 3, 4)` for `margin`. -/
theorem claim_C4_witness :
    normalizeBoxSpacing (.int 7) "margin" = .ok (7, 7, 7, 7) ∧
    normalizeBoxSpacing (.seq [.int 1, .int 2, .int 3, .int 4]) "margin" =
      .ok (1, 2, 3, 4) := by
  constructor
  · rw [claim_C4_box_spacing_not_halved.1 7 "margin"]
    norm_num
  · rw [claim_C4_box_spacing_not_halved.2.2 (.int 1) (.int 2) (.int 3) (.int 4)
      "margin" rfl rfl rfl rfl]
    norm_num [SpacingElem.val]

/-- C10: a scalar float for `margin`, `padding` or `cells_spacing` is
rejected by the `isinstance(value, (int, tuple, list))` guard of both
normalizers with a `TypeError` naming the parameter, while float elements
inside 2- and 4-sequences are accepted. -/
theorem claim_C10_scalar_float_rejected :
    (∀ q : ℚ, normalizeCellSpacing (.float q) =
        .error (.invalidSpacingType "cells_spacing" "float")) ∧
    (∀ (q : ℚ) (name : String), normalizeBoxSpacing (.float q) name =
        .error (.invalidSpacingType name "float")) ∧
    (∀ x y : ℚ, normalizeCellSpacing (.seq [.float x, .float y]) =
        .ok (x / 2, y / 2, x / 2, y / 2)) ∧
    (∀ (l t r b : ℚ) (name : String),
        normalizeBoxSpacing (.seq [.float l, .float t, .float r, .float b]) name =
          .ok (l, t, r, b)) := by
  refine ⟨fun q => rfl, fun q name => rfl, fun x y => ?_,
    fun l t r b name => ?_⟩
  · simp [normalizeCellSpacing, ensureNumericSequence, SpacingElem.isNumeric,
      SpacingElem.val]
  · simp [normalizeBoxSpacing, ensureNumericSequence, SpacingElem.isNumeric,
      SpacingElem.val]

/-- C6 fails as stated: a 3-sequence whose elements are all non-numeric
raises the length `ValueError` (the length check runs first), not the
`TypeError` that names the parameter and shows the offending sequence. -/
theorem claim_C6_counterexample :
    normalizeCellSpacing (.seq [.other "str", .other "str", .other "str"]) =
      .error (.invalidLength "cells_spacing") ∧
    normalizeBoxSpacing (.seq [.other "str", .other "str", .other "str"])
      "margin" = .error (.invalidLength "margin") ∧
    PyError.invalidLength "cells_spacing" ≠
      PyError.invalidNumeric "cells_spacing"
        [.other "str", .other "str", .other "str"] := by
  refine ⟨rfl, rfl, by with_unfolding_all decide⟩

/-- C6 amended: for both normalizers, a non-int/tuple/list argument fails
with a `TypeError` naming the parameter; a sequence of length 2 or 4
containing a non-numeric element fails with a `TypeError` naming the
parameter and showing the sequence; a sequence whose length is neither 2
nor 4 fails with the valid-forms `ValueError` (even when it also contains
non-numeric elements, since the length dispatch runs first). -/
theorem claim_C6_amended_error_taxonomy :
    (∀ q : ℚ, normalizeCellSpacing (.float q) =
        .error (.invalidSpacingType "cells_spacing" "float")) ∧
    (∀ t : String, normalizeCellSpacing (.other t) =
        .error (.invalidSpacingType "cells_spacing" t)) ∧
    (∀ (q : ℚ) (name : String), normalizeBoxSpacing (.float q) name =
        .error (.invalidSpacingType name "float")) ∧
    (∀ (t : String) (name : String), normalizeBoxSpacing (.other t) name =
        .error (.invalidSpacingType name t)) ∧
    (∀ sq : List SpacingElem, (sq.length = 2 ∨ sq.length = 4) →
        ¬ sq.all SpacingElem.isNumeric →
        normalizeCellSpacing (.seq sq) =
          .error (.invalidNumeric "cells_spacing" sq)) ∧
    (∀ (sq : List SpacingElem) (name : String),
        (sq.length = 2 ∨ sq.length = 4) → ¬ sq.all SpacingElem.isNumeric →
        normalizeBoxSpacing (.seq sq) name =
          .error (.invalidNumeric name sq)) ∧
    (∀ sq : List SpacingElem, sq.length ≠ 2 → sq.length ≠ 4 →
        normalizeCellSpacing (.seq sq) =
          .error (.invalidLength "cells_spacing")) ∧
    (∀ (sq : List SpacingElem) (name : String),
        sq.length ≠ 2 → sq.length ≠ 4 →
        normalizeBoxSpacing (.seq sq) name =
          .error (.invalidLength name)) := by
  refine ⟨fun q => rfl, fun t => rfl, fun q name => rfl, fun t name => rfl,
    fun sq hlen hnum => ?_, fun sq name hlen hnum => ?_,
    fun sq h2 h4 => ?_, fun sq name h2 h4 => ?_⟩
  · rcases hlen with h | h <;>
      simp [normalizeCellSpacing, ensureNumericSequence, h, hnum]
  · rcases hlen with h | h <;>
      simp [normalizeBoxSpacing, ensureNumericSequence, h, hnum]
  · simp [normalizeCellSpacing, h2, h4]
  · simp [normalizeBoxSpacing, h2, h4]

/-- Witness for the amended C6: a string scalar, a 2-sequence containing a
string, and a 3-sequence, for both normalizers. -/
theorem claim_C6_witness :
    normalizeCellSpacing (.other "str") =
      .error (.invalidSpacingType "cells_spacing" "str") ∧
    normalizeCellSpacing (.seq [.int 1, .other "str"]) =
      .error (.invalidNumeric "cells_spacing" [.int 1, .other "str"]) ∧
    normalizeBoxSpacing (.seq [.int 1, .int 2, .int 3]) "padding" =
      .error (.invalidLength "padding") := by
  refine ⟨claim_C6_amended_error_taxonomy.2.1 "str", ?_, ?_⟩
  · exact claim_C6_amended_error_taxonomy.2.2.2.2.1 [.int 1, .other "str"]
      (Or.inl rfl) (by with_unfolding_all decide)
  · exact claim_C6_amended_error_taxonomy.2.2.2.2.2.2.2
      [.int 1, .int 2, .int 3] "padding" (by with_unfolding_all decide)
      (by with_unfolding_all decide)

/-- Rebuilding from a different base id changes only cell identities, not
the observable layout. -/
lemma matrixObs_buildMatrix (st : CellStyle) (sp : ℚ × ℚ × ℚ × ℚ)
    (b b' : Nat) (r c : Int) :
    matrixObs (buildMatrix st sp b r c) = matrixObs (buildMatrix st sp b' r c) := by
  simp [matrixObs, buildMatrix, List.map_map, Function.comp, Cell.obs, mkCell]

/-- C5: `load_cells` with an int shape `n` builds an `n × n` matrix, and
with an explicit pair `(r, c)` builds `r` rows by `c` columns,
retrievable via `get_cells_grid`; a shape that does not normalize to
exactly two dimensions makes `load_cells` fail with the shape
`ValueError`. -/
theorem claim_C5_shape_semantics :
    (∀ (s : GridState) (a : LoadArgs) (n : Int) (sp : ℚ × ℚ × ℚ × ℚ),
        WF s → a.array = .int n →
        normalizeCellSpacing a.cells_spacing = .ok sp →
        (loadCells s a).2 = none ∧
        (get_cells_grid (loadCells s a).1).length = n.toNat ∧
        ∀ rowCells ∈ get_cells_grid (loadCells s a).1,
          rowCells.length = n.toNat) ∧
    (∀ (s : GridState) (a : LoadArgs) (r c : Int) (sp : ℚ × ℚ × ℚ × ℚ),
        WF s → a.array = .seq [r, c] →
        normalizeCellSpacing a.cells_spacing = .ok sp →
        (loadCells s a).2 = none ∧
        (get_cells_grid (loadCells s a).1).length = r.toNat ∧
        ∀ rowCells ∈ get_cells_grid (loadCells s a).1,
          rowCells.length = c.toNat) ∧
    (∀ (s : GridState) (a : LoadArgs) (xs : List Int),
        WF s → a.array = .seq xs → xs.length ≠ 2 →
        (loadCells s a).2 = some .invalidShape) := by
  refine ⟨fun s a n sp hwf ha hsp => ?_, fun s a r c sp hwf ha hsp => ?_,
    fun s a xs hwf ha hxs => ?_⟩
  · have hgs : arrayShape a.array = [n, n] := by rw [ha]; rfl
    rw [loadCells_ok s a n n sp hwf hgs hsp]
    exact ⟨rfl, buildMatrix_length _ _ _ _ _, buildMatrix_row_length _ _ _ _ _⟩
  · have hgs : arrayShape a.array = [r, c] := by rw [ha]; rfl
    rw [loadCells_ok s a r c sp hwf hgs hsp]
    exact ⟨rfl, buildMatrix_length _ _ _ _ _, buildMatrix_row_length _ _ _ _ _⟩
  · unfold loadCells
    rw [destroyAllCells_wf s hwf]
    simp [ha, arrayShape, hxs]

/-- Witness for C5: `array=3` gives a 3×3 matrix, `array=(2,5)` gives 2
rows of 5 columns, and `array=(1,2,3)` raises the shape error. -/
theorem claim_C5_witness :
    (loadCells initState { array := .int 3 }).2 = none ∧
    (get_cells_grid (loadCells initState { array := .int 3 }).1).length = 3 ∧
    (get_cells_grid (loadCells initState { array := .seq [2, 5] }).1).length = 2 ∧
    (∀ rowCells ∈ get_cells_grid (loadCells initState { array := .seq [2, 5] }).1,
        rowCells.length = 5) ∧
    (loadCells initState { array := .seq [1, 2, 3] }).2 = some .invalidShape := by
  have h3 := claim_C5_shape_semantics.1 initState { array := .int 3 } 3
    (5, 5, 5, 5) (Or.inl rfl) rfl (by with_unfolding_all decide)
  have h25 := claim_C5_shape_semantics.2.1 initState { array := .seq [2, 5] } 2 5
    (5, 5, 5, 5) (Or.inl rfl) rfl (by with_unfolding_all decide)
  exact ⟨h3.1, h3.2.1, h25.2.1, h25.2.2,
    claim_C5_shape_semantics.2.2 initState { array := .seq [1, 2, 3] }
      [1, 2, 3] (Or.inl rfl) rfl (by with_unfolding_all decide)⟩

/-- C2: in every successful build with spacing normalized to
`(l, t, r, b)`, the cell at `(row, col)` is placed with left margin `l`
iff `col ≠ 0`, right margin `r` iff `col` is not the last column, top
margin `t` iff `row ≠ 0`, bottom margin `b` iff `row` is not the last row
(outer edges get 0); in particular after
`load_cells(array=2, cells_spacing=10)` cell `(0,0)` has margins
`padx=(0,5)`, `pady=(0,5)` and cell `(1,1)` has `padx=(5,0)`,
`pady=(5,0)`. -/
theorem claim_C2_cell_margins :
    (∀ (s : GridState) (a : LoadArgs) (r c : Int) (sp : ℚ × ℚ × ℚ × ℚ)
        (s' : GridState) (row col : Nat) (rowCells : List Cell) (cell : Cell),
        WF s → arrayShape a.array = [r, c] →
        normalizeCellSpacing a.cells_spacing = .ok sp →
        loadCells s a = (s', none) →
        (get_cells_grid s')[row]? = some rowCells →
        rowCells[col]? = some cell →
        s'.cell_spacing = sp ∧
        cell.padx.1 = (if col ≠ 0 then sp.1 else 0) ∧
        cell.padx.2 = (if (col : Int) ≠ c - 1 then sp.2.2.1 else 0) ∧
        cell.pady.1 = (if row ≠ 0 then sp.2.1 else 0) ∧
        cell.pady.2 = (if (row : Int) ≠ r - 1 then sp.2.2.2 else 0)) ∧
    (cellAt stateSquare2 0 0).map Cell.padx = some (0, 5) ∧
    (cellAt stateSquare2 0 0).map Cell.pady = some (0, 5) ∧
    (cellAt stateSquare2 1 1).map Cell.padx = some (5, 0) ∧
    (cellAt stateSquare2 1 1).map Cell.pady = some (5, 0) := by
  refine ⟨?_, by with_unfolding_all decide, by with_unfolding_all decide,
    by with_unfolding_all decide, by with_unfolding_all decide⟩
  intro s a r c sp s' row col rowCells cell hwf hgs hsp hload hrow hcol
  rw [loadCells_ok s a r c sp hwf hgs hsp] at hload
  injection hload with hs' _
  subst hs'
  obtain ⟨hr, hc, hcell⟩ :=
    buildMatrix_cell_inv (styleOfArgs a) sp s.nextId r c row col rowCells cell
      hrow hcol
  subst hcell
  refine ⟨rfl, ?_, ?_, ?_, ?_⟩
  · simp only [mkCell, timesBool_eq]
    by_cases h : col = 0 <;> simp [h]
  · simp only [mkCell, timesBool_eq]
  · simp only [mkCell, timesBool_eq]
    by_cases h : row = 0 <;> simp [h]
  · simp only [mkCell, timesBool_eq]

/-- Witness for the universally quantified part of C2, at
`load_cells(array=2, cells_spacing=10)` and cell `(1, 1)`. -/
theorem claim_C2_witness :
    (((get_cells_grid stateSquare2).getD 1 []).getD 1 default).padx.1
        = (if 1 ≠ 0 then ((5 : ℚ), (5 : ℚ), (5 : ℚ), (5 : ℚ)).1 else 0) := by
  exact (claim_C2_cell_margins.1 initState argsSquare2 2 2 (5, 5, 5, 5)
    stateSquare2 1 1 ((get_cells_grid stateSquare2).getD 1 [])
    (((get_cells_grid stateSquare2).getD 1 []).getD 1 default)
    (Or.inl rfl) rfl (by with_unfolding_all decide)
    (by with_unfolding_all decide) (by with_unfolding_all decide)
    (by with_unfolding_all decide)).2.1

/-- C1 fails as stated: `load_cells(array=(1,2,3))` on a widget holding a
built 2×2 matrix does raise the shape `ValueError`, but only after
`__destroy_all_cells` has already destroyed all four prior cells (the ids
0-3 appear in the destruction log) and after `self.grid_shape` has been
overwritten with `(1,2,3)` — the destructive side effect the claim rules
out. -/
theorem claim_C1_counterexample :
    (loadCells stateSquare2 argsBad123).2 = some .invalidShape ∧
    stateSquare2.destroyedIds = [] ∧
    matrixIds stateSquare2.cells_matrix = [0, 1, 2, 3] ∧
    (loadCells stateSquare2 argsBad123).1.destroyedIds = [0, 1, 2, 3] ∧
    (loadCells stateSquare2 argsBad123).1.grid_shape = [1, 2, 3] := by
  with_unfolding_all decide

/-- C1 amended: on a well-formed state, a `load_cells` call whose shape
does not normalize to two dimensions raises the shape `ValueError` before
spacing normalization (so `cell_spacing`, the styling and the matrix list
are untouched and no new cell is created), but the destruction of the
prior cells and the overwrite of `grid_shape` happen before shape
validation, so every prior cell is destroyed. -/
theorem claim_C1_shape_error_after_destroy :
    ∀ (s : GridState) (a : LoadArgs) (xs : List Int),
      WF s → a.array = .seq xs → xs.length ≠ 2 →
      loadCells s a =
        ({ s with
            grid_shape := xs
            destroyedIds := s.destroyedIds ++ matrixIds s.cells_matrix },
         some .invalidShape) := by
  intro s a xs hwf ha hxs
  unfold loadCells
  rw [destroyAllCells_wf s hwf]
  simp [ha, arrayShape, hxs]

/-- Witness for the amended C1 at the concrete scenario: 2×2 build, then
`array=(1,2,3)`. -/
theorem claim_C1_witness :
    loadCells stateSquare2 argsBad123 =
      ({ stateSquare2 with
          grid_shape := [1, 2, 3]
          destroyedIds :=
            stateSquare2.destroyedIds ++ matrixIds stateSquare2.cells_matrix },
       some .invalidShape) := by
  exact claim_C1_shape_error_after_destroy stateSquare2 argsBad123 [1, 2, 3]
    (WF_loadCells initState argsSquare2 2 2 (5, 5, 5, 5) (Or.inl rfl) rfl
      (by with_unfolding_all decide))
    rfl (by with_unfolding_all decide)

/-- C7: for two successful `load_cells` calls in sequence, the matrix
afterwards has exactly the second shape's rows×columns, every cell handle
of the first build appears in the destruction log of the second call, and
no cell of the second build is a cell of the first (the first build's
handles all predate the ones the second build issues). -/
theorem claim_C7_rebuild_replaces :
    ∀ (s : GridState) (a1 a2 : LoadArgs) (r1 c1 r2 c2 : Int)
      (sp1 sp2 : ℚ × ℚ × ℚ × ℚ) (s1 s2 : GridState),
      WF s → arrayShape a1.array = [r1, c1] →
      normalizeCellSpacing a1.cells_spacing = .ok sp1 →
      arrayShape a2.array = [r2, c2] →
      normalizeCellSpacing a2.cells_spacing = .ok sp2 →
      loadCells s a1 = (s1, none) → loadCells s1 a2 = (s2, none) →
      (get_cells_grid s2).length = r2.toNat ∧
      (∀ rowCells ∈ get_cells_grid s2, rowCells.length = c2.toNat) ∧
      (∀ id ∈ matrixIds s1.cells_matrix, id ∈ s2.destroyedIds) ∧
      (∀ id ∈ matrixIds s2.cells_matrix, id ∉ matrixIds s1.cells_matrix) := by
  intro s a1 a2 r1 c1 r2 c2 sp1 sp2 s1 s2 hwf hg1 hs1 hg2 hs2 hl1 hl2
  rw [loadCells_ok s a1 r1 c1 sp1 hwf hg1 hs1] at hl1
  injection hl1 with e1 _
  have hwf1 : WF s1 := by
    rw [← e1]
    exact Or.inr ⟨r1, c1, rfl, buildMatrix_length _ _ _ _ _,
      buildMatrix_row_length _ _ _ _ _⟩
  rw [loadCells_ok s1 a2 r2 c2 sp2 hwf1 hg2 hs2] at hl2
  injection hl2 with e2 _
  subst e2
  subst e1
  refine ⟨buildMatrix_length _ _ _ _ _, buildMatrix_row_length _ _ _ _ _,
    fun id hid => List.mem_append_right _ hid, fun id h2 h1 => ?_⟩
  have b2 := matrixIds_buildMatrix _ _ _ _ _ id h2
  have b1 := matrixIds_buildMatrix _ _ _ _ _ id h1
  simp only at b1 b2
  omega

/-- Witness for C7: `load_cells(array=2)` then `load_cells(array=(1,3))`;
the second matrix is 1×3, the first build's handle 0 is in the
destruction log, and the second build's handle 4 is not a handle of the
first build. -/
theorem claim_C7_witness :
    (get_cells_grid (loadCells stateSquare2 argsRow13).1).length = 1 ∧
    0 ∈ (loadCells stateSquare2 argsRow13).1.destroyedIds ∧
    4 ∉ matrixIds stateSquare2.cells_matrix := by
  have h := claim_C7_rebuild_replaces initState argsSquare2 argsRow13 2 2 1 3
    (5, 5, 5, 5) (5, 5, 5, 5) stateSquare2 (loadCells stateSquare2 argsRow13).1
    (Or.inl rfl) rfl (by with_unfolding_all decide) rfl
    (by with_unfolding_all decide) (by with_unfolding_all decide)
    (by with_unfolding_all decide)
  exact ⟨h.1, h.2.2.1 0 (by with_unfolding_all decide),
    h.2.2.2 4 (by with_unfolding_all decide)⟩

/-- C8: re-invoking `load_cells` with the same arguments leaves the same
`grid_shape`, the same stored styling, the same normalized spacing, and a
matrix with the same observable layout cell by cell, while every cell
widget is a new one (no handle of the second build belongs to the
first). -/
theorem claim_C8_identical_reload :
    ∀ (s : GridState) (a : LoadArgs) (r c : Int) (sp : ℚ × ℚ × ℚ × ℚ)
      (s1 s2 : GridState),
      WF s → arrayShape a.array = [r, c] →
      normalizeCellSpacing a.cells_spacing = .ok sp →
      loadCells s a = (s1, none) → loadCells s1 a = (s2, none) →
      s2.grid_shape = s1.grid_shape ∧ s2.style = s1.style ∧
      s2.cell_spacing = s1.cell_spacing ∧
      matrixObs s2.cells_matrix = matrixObs s1.cells_matrix ∧
      ∀ id ∈ matrixIds s2.cells_matrix, id ∉ matrixIds s1.cells_matrix := by
  intro s a r c sp s1 s2 hwf hgs hsp hl1 hl2
  rw [loadCells_ok s a r c sp hwf hgs hsp] at hl1
  injection hl1 with e1 _
  have hwf1 : WF s1 := by
    rw [← e1]
    exact Or.inr ⟨r, c, rfl, buildMatrix_length _ _ _ _ _,
      buildMatrix_row_length _ _ _ _ _⟩
  rw [loadCells_ok s1 a r c sp hwf1 hgs hsp] at hl2
  injection hl2 with e2 _
  subst e2
  subst e1
  refine ⟨rfl, rfl, rfl, matrixObs_buildMatrix _ _ _ _ _ _,
    fun id h2 h1 => ?_⟩
  have b2 := matrixIds_buildMatrix _ _ _ _ _ id h2
  have b1 := matrixIds_buildMatrix _ _ _ _ _ id h1
  simp only at b1 b2
  omega

/-- Witness for C8: `load_cells(array=2, cells_spacing=10)` twice. -/
theorem claim_C8_witness :
    matrixObs (loadCells stateSquare2 argsSquare2).1.cells_matrix =
      matrixObs stateSquare2.cells_matrix ∧
    4 ∉ matrixIds stateSquare2.cells_matrix := by
  have h := claim_C8_identical_reload initState argsSquare2 2 2 (5, 5, 5, 5)
    stateSquare2 (loadCells stateSquare2 argsSquare2).1 (Or.inl rfl) rfl
    (by with_unfolding_all decide) (by with_unfolding_all decide)
    (by with_unfolding_all decide)
  exact ⟨h.2.2.2.1, h.2.2.2.2 4 (by with_unfolding_all decide)⟩

/-- C9: `__destroy_all_cells` iterates over ranges taken from
`self.grid_shape`, not from the stored matrix; after a successful 2×2
build and a failed `load_cells(array=(5,5,5))` (which overwrites
`grid_shape` without rebuilding the matrix), every further `load_cells`
call — whatever its arguments — raises `IndexError` from the destruction
loop instead of the specified validation error. -/
theorem claim_C9_stale_shape_index_error :
    (loadCells initState argsSquare2).2 = none ∧
    (loadCells stateSquare2 argsBad555).2 = some .invalidShape ∧
    stateAfterBad555.grid_shape = [5, 5, 5] ∧
    stateAfterBad555.cells_matrix = stateSquare2.cells_matrix ∧
    stateAfterBad555.cells_matrix ≠ [] ∧
    ∀ a : LoadArgs, (loadCells stateAfterBad555 a).2 = some .indexError := by
  refine ⟨by with_unfolding_all decide, by with_unfolding_all decide,
    by with_unfolding_all decide, by with_unfolding_all decide,
    by with_unfolding_all decide, fun a => ?_⟩
  have h : (destroyAllCells stateAfterBad555).2 = some .indexError := by
    with_unfolding_all decide
  rw [loadCells_destroy_err stateAfterBad555 a .indexError h]
